import Mathlib

/-!
# Verification of the ESP32 crash test suite

Shallow embedding of `src/main/utils/crash_test_suite.py` (class `CrashTestSuite`).

Modelling conventions:
* A serial text line is a `List Char` (`Line`); Python's `indicator in line`
  substring test becomes `containsSub`.
* Wall-clock time is modelled in units of the reader's 1 ms sleep interval;
  `datetime.now()` becomes an explicit `now : Nat` parameter.
* Serial reads performed by the orchestrator are abstracted by a `TestEnv`
  record holding, for each read site, either the captured lines
  (`Except.ok`) or an uncaught exception propagating out of the read
  (`Except.error`), as pyserial's `in_waiting` can raise outside the inner
  `try` of `read_serial_with_timeout`.
* `send_command` catches all its own exceptions and returns a `Bool`, so it
  is abstracted by `TestEnv.sendOk`.
-/

namespace CrashSuite

/-- A single serial text line, as a list of characters. -/
abbrev Line := List Char

/-- Convert a string literal to a `Line`. -/
def str (s : String) : Line := s.toList

/-- Python `str.strip()` whitespace class (ASCII part). -/
def isWS (c : Char) : Bool :=
  c = ' ' || c = '\t' || c = '\n' || c = '\r' || c = '\x0b' || c = '\x0c'

/-- Python `line.strip()`: drop whitespace from both ends. -/
def trim (l : Line) : Line :=
  ((l.dropWhile isWS).reverse.dropWhile isWS).reverse

/-- Python substring test `needle in hay`. -/
def containsSub (needle hay : Line) : Bool :=
  hay.tails.any fun t => needle.isPrefixOf t

/-- ASCII lowercasing of a line, for `re.IGNORECASE` matching. -/
def lower (l : Line) : Line := l.map Char.toLower

/-! ## Line Reader (`read_serial_with_timeout`, lines 129-155)

The `while '\n' in buffer` inner loop repeatedly splits the buffer at the
first newline; `splitNL` computes all completed segments and the trailing
carry-over in one pass. -/

/-- Prepend a character to the first completed line of a split result,
or to the carry-over when there is no completed line. -/
def consFirst (c : Char) : List Line × Line → List Line × Line
  | ([], r) => ([], c :: r)
  | (l :: ls, r) => ((c :: l) :: ls, r)

/-- Split a buffer into the newline-terminated segments and the trailing
segment after the last newline (the carry-over). -/
def splitNL : Line → List Line × Line
  | [] => ([], [])
  | c :: rest =>
    if c = '\n' then ([] :: (splitNL rest).1, (splitNL rest).2)
    else consFirst c (splitNL rest)

/-- The lines actually emitted from a byte sequence: each newline-terminated
segment, stripped, with empty results discarded (source lines 142-148). -/
def emitLines (s : Line) : List Line :=
  ((splitNL s).1.map trim).filter fun l => !l.isEmpty

/-- One poll loop of `read_serial_with_timeout`.  `avail k` is the data the
transport delivers on the `k`-th poll (transient read errors are caught in
the source and act as empty data, so they are part of this abstraction);
`extra k` is any wall-clock time the `k`-th iteration spends beyond the
mandatory 1 ms sleep.  `fuel` only bounds the recursion: since every
iteration advances the clock by at least 1, `fuel = timeout` suffices, and
`read_serial_go_fuel_irrel` shows any sufficient fuel gives the same result.
Returns the emitted lines and the elapsed time at return. -/
def read_serial_go (avail : Nat → Line) (extra : Nat → Nat) :
    Nat → Nat → Nat → Nat → Line → List Line → List Line × Nat
  | 0, _, _, elapsed, _, lines => (lines, elapsed)
  | fuel + 1, timeout, k, elapsed, buffer, lines =>
    if elapsed < timeout then
      read_serial_go avail extra fuel timeout (k + 1) (elapsed + 1 + extra k)
        (splitNL (buffer ++ avail k)).2
        (lines ++ (((splitNL (buffer ++ avail k)).1.map trim).filter fun l => !l.isEmpty))
    else (lines, elapsed)

/-- Model of `read_serial_with_timeout(timeout)`: the lines collected during the
bounded poll loop (source lines 129-155). -/
def read_serial_with_timeout (timeout : Nat) (avail : Nat → Line) (extra : Nat → Nat) :
    List Line :=
  (read_serial_go avail extra timeout timeout 0 0 [] []).1

/-- The wall-clock instant at which `read_serial_with_timeout` returns. -/
def read_serial_elapsed (timeout : Nat) (avail : Nat → Line) (extra : Nat → Nat) : Nat :=
  (read_serial_go avail extra timeout timeout 0 0 [] []).2

/-- All bytes the transport delivers during the observation window
(the concatenation of the chunks read by each executed poll). -/
def window (avail : Nat → Line) (extra : Nat → Nat) : Nat → Nat → Nat → Nat → Line
  | 0, _, _, _ => []
  | fuel + 1, timeout, k, elapsed =>
    if elapsed < timeout then avail k ++ window avail extra fuel timeout (k + 1) (elapsed + 1 + extra k)
    else []

/-! ## Telemetry classifiers -/

/-- Readiness indicator substrings (source lines 162-166). -/
def ready_indicators : List Line :=
  [str "System Monitor - Fully Initialized",
   str "Crash handler initialized",
   str "Crash log manager initialized"]

/-- The `found_indicators` list built by `wait_for_system_ready`
(source lines 168-172): one entry per (line, indicator) containment pair. -/
def found_indicators (lines : List Line) : List Line :=
  lines.flatMap fun line => ready_indicators.filter fun ind => containsSub ind line

/-- Readiness decision of `wait_for_system_ready` on the captured lines
(source lines 157-179): true iff at least two entries were appended. -/
def wait_for_system_ready (lines : List Line) : Bool :=
  2 ≤ (found_indicators lines).length

/-- The readiness classifier as the spec describes it: counts *distinct*
indicators found across the batch.  Stated only to compare with the
source's `wait_for_system_ready`, which counts occurrences. -/
def wait_for_system_ready_distinct (lines : List Line) : Bool :=
  2 ≤ (ready_indicators.filter fun ind => lines.any fun line => containsSub ind line).length

/-- Reboot indicator substrings (source lines 183-188). -/
def reboot_indicators : List Line :=
  [str "ESP-ROM:esp32s3",
   str "rst:0x",
   str "ESP-IDF v5.5 2nd stage bootloader",
   str "Loaded app from partition"]

/-- Reboot classifier `detect_reboot` (source lines 181-194): true on the first line containing
any boot indicator. -/
def detect_reboot (lines : List Line) : Bool :=
  lines.any fun line => reboot_indicators.any fun ind => containsSub ind line

/-- One parsed crash-log entry (the dict built at source lines 211-216).
`data` is `match.groups() if match.groups() else None`; `timestamp` is the
`datetime.now()` at event creation. -/
structure CrashEvent where
  type : String
  line : Line
  data : Option (List Line)
  timestamp : Nat
deriving DecidableEq, Repr

/-- The `capturedGroups` of the spec's ObservedEvent: the groups sequence,
empty when the source stored `None`. -/
def capturedGroups (ev : CrashEvent) : List Line := ev.data.getD []

/-- Try a pattern anchored at every suffix, leftmost first: the semantics of
`re.search`'s scan over starting positions. -/
def firstSome {α : Type} (f : Line → Option α) : Line → Option α
  | [] => f []
  | c :: rest =>
    match f (c :: rest) with
    | some a => some a
    | none => firstSome f rest

/-- Pattern `r'Crash log manager initialized - (\d+) logs stored'` anchored at
the start of `suf` (case-insensitive).  `(\d+)` is greedy and is followed by
a space, so only the maximal digit run can match. -/
def matchInitAt (suf : Line) : Option (List Line) :=
  if (str "crash log manager initialized - ").isPrefixOf (lower suf) then
    if !((suf.drop 32).takeWhile Char.isDigit).isEmpty &&
        (str " logs stored").isPrefixOf
          (lower ((suf.drop 32).dropWhile Char.isDigit)) then
      some [(suf.drop 32).takeWhile Char.isDigit]
    else none
  else none

/-- Leftmost `re.search` for the `'init'` pattern (source line 201). -/
def matchInit (line : Line) : Option (List Line) := firstSome matchInitAt line

/-- Leftmost `re.search` for the `'stored'` pattern `r'logs stored|Storing crash log'`
(source line 202): an alternation of two literals with no groups. -/
def matchStored (line : Line) : Option (List Line) :=
  if containsSub (str "logs stored") (lower line) ||
      containsSub (str "storing crash log") (lower line) then some [] else none

/-- Pattern `r'Test crash logged: (.+)'` anchored at the start of `suf`:
the greedy `(.+)` captures the rest of the line up to a newline, and must be
nonempty. -/
def matchTestLoggedAt (suf : Line) : Option (List Line) :=
  if (str "test crash logged: ").isPrefixOf (lower suf) then
    if !((suf.drop 19).takeWhile fun c => c ≠ '\n').isEmpty then
      some [(suf.drop 19).takeWhile fun c => c ≠ '\n']
    else none
  else none

/-- Leftmost `re.search` for the `'test_logged'` pattern (source line 203). -/
def matchTestLogged (line : Line) : Option (List Line) := firstSome matchTestLoggedAt line

/-- Pattern `r'System recovered from crash: (.+)'` anchored at the start of
`suf`. -/
def matchRecoveryAt (suf : Line) : Option (List Line) :=
  if (str "system recovered from crash: ").isPrefixOf (lower suf) then
    if !((suf.drop 29).takeWhile fun c => c ≠ '\n').isEmpty then
      some [(suf.drop 29).takeWhile fun c => c ≠ '\n']
    else none
  else none

/-- Leftmost `re.search` for the `'recovery'` pattern (source line 204). -/
def matchRecovery (line : Line) : Option (List Line) := firstSome matchRecoveryAt line

/-- The `patterns` dict of `parse_crash_logs` (source lines 200-205), in
insertion order. -/
def patterns : List (String × (Line → Option (List Line))) :=
  [("init", matchInit), ("stored", matchStored),
   ("test_logged", matchTestLogged), ("recovery", matchRecovery)]

/-- The crash-log entries one line contributes (inner loop of
`parse_crash_logs`, source lines 208-216). -/
def lineEvents (now : Nat) (line : Line) : List CrashEvent :=
  patterns.filterMap fun p =>
    (p.2 line).map fun gs =>
      { type := p.1, line := line,
        data := if gs.isEmpty then none else some gs, timestamp := now }

/-- Crash-log classifier `parse_crash_logs` (source lines 196-218). -/
def parse_crash_logs (now : Nat) (lines : List Line) : List CrashEvent :=
  lines.flatMap (lineEvents now)

/-- A crash event with its wall-clock timestamp forgotten. -/
def eraseTimestamp (ev : CrashEvent) : CrashEvent := { ev with timestamp := 0 }

/-! ## Test orchestrator -/

/-- Test-marker indicator substrings of `trigger_soft_crash_test`
(source lines 228-232). -/
def test_indicators : List Line :=
  [str "Test crash logged", str "TEST:", str "Manual crash test"]

/-- The decision of `trigger_soft_crash_test` given the lines captured in its
5-second observation window (source lines 220-241): found a test marker? -/
def trigger_soft_crash_test (lines : List Line) : Bool :=
  lines.any fun line => test_indicators.any fun ind => containsSub ind line

/-- One entry of the `crash_tests` catalog (source lines 48-91). -/
structure TestConfig where
  name : String
  command : String
  description : String
  expect_reboot : Bool
  timeout : Nat
deriving DecidableEq, Repr

/-- The fixed `crash_tests` catalog (source lines 48-91). -/
def crash_tests : List (String × TestConfig) :=
  [("soft_test",
    { name := "Soft Test Crash", command := "TEST_CRASH_SOFT",
      description := "Tests logging without actual crash",
      expect_reboot := false, timeout := 10 }),
   ("null_pointer",
    { name := "Null Pointer Dereference", command := "TEST_CRASH_NULL",
      description := "Triggers null pointer access violation",
      expect_reboot := true, timeout := 15 }),
   ("stack_overflow",
    { name := "Stack Overflow", command := "TEST_CRASH_STACK",
      description := "Triggers stack overflow through recursion",
      expect_reboot := true, timeout := 15 }),
   ("heap_corruption",
    { name := "Heap Corruption", command := "TEST_CRASH_HEAP",
      description := "Triggers heap corruption detection",
      expect_reboot := true, timeout := 15 }),
   ("assert_fail",
    { name := "Assertion Failure", command := "TEST_CRASH_ASSERT",
      description := "Triggers assertion failure",
      expect_reboot := true, timeout := 15 }),
   ("watchdog",
    { name := "Watchdog Timeout", command := "TEST_CRASH_WATCHDOG",
      description := "Triggers watchdog timeout",
      expect_reboot := true, timeout := 30 })]

/-- Catalog lookup `test_name in self.crash_tests` / `self.crash_tests[test_name]`. -/
def lookupTest (test_name : String) : Option TestConfig :=
  (crash_tests.find? fun p => p.1 == test_name).map Prod.snd

/-- The per-test result dict of `run_crash_test` (source lines 252-260).
The `duration` field (pure wall-clock bookkeeping) is not modelled. -/
structure TestResult where
  test_name : String := ""
  success : Bool := false
  crash_detected : Bool := false
  reboot_detected : Bool := false
  crash_logs : List CrashEvent := []
  error : Option String := none
deriving DecidableEq, Repr

/-- Externally visible actions of one `run_crash_test` call: the commands
written to the transport and whether `detect_reboot` was invoked. -/
structure Effects where
  commandsSent : List String := []
  rebootClassifierApplied : Bool := false
deriving DecidableEq, Repr

/-- The serial environment one `run_crash_test` call observes.  Each read
site yields either the captured lines or an uncaught exception message. -/
structure TestEnv where
  sendOk : Bool
  softRead : Except String (List Line)
  obsRead : Except String (List Line)
  recRead : Except String (List Line)
  now : Nat

/-- Orchestrator `run_crash_test` (source lines 243-304).  The `try` block catches any
exception and records `str(e)` in `error`, leaving the other fields as they
were at the moment the exception was raised. -/
def run_crash_test (test_name : String) (env : TestEnv) : TestResult × Effects :=
  match lookupTest test_name with
  | none =>
    ({ success := false, error := some ("Unknown test: " ++ test_name) }, {})
  | some cfg =>
    if test_name == "soft_test" then
      match env.softRead with
      | Except.ok ls =>
        ({ test_name := test_name, success := trigger_soft_crash_test ls }, {})
      | Except.error e =>
        ({ test_name := test_name, error := some e }, {})
    else
      if !env.sendOk then
        ({ test_name := test_name, error := some "Failed to send command" },
         { commandsSent := [cfg.command] })
      else
        match env.obsRead with
        | Except.error e =>
          ({ test_name := test_name, error := some e },
           { commandsSent := [cfg.command] })
        | Except.ok ls =>
          let reboot := detect_reboot ls
          let logs := parse_crash_logs env.now ls
          let crash := !logs.isEmpty
          let succ := if cfg.expect_reboot then reboot && crash else crash && !reboot
          let r1 : TestResult :=
            { test_name := test_name, success := succ, crash_detected := crash,
              reboot_detected := reboot, crash_logs := logs }
          let eff : Effects :=
            { commandsSent := [cfg.command], rebootClassifierApplied := true }
          if reboot then
            match env.recRead with
            | Except.error e => ({ r1 with error := some e }, eff)
            | Except.ok rs =>
              if wait_for_system_ready rs then (r1, eff)
              else ({ r1 with success := false }, eff)
          else (r1, eff)

/-! ## Suite aggregation (`run_test_suite`, source lines 306-361) -/

/-- The `summary` counters dict (source lines 321-326). -/
structure Summary where
  total : Nat := 0
  passed : Nat := 0
  failed : Nat := 0
  errors : Nat := 0
deriving DecidableEq, Repr

/-- The `suite_results` record, minus the wall-clock `start_time`/`end_time`
fields.  `tests` models the Python dict as an insertion-ordered association
list. -/
structure SuiteResults where
  tests : List (String × TestResult) := []
  summary : Summary := {}
deriving DecidableEq, Repr

/-- Python truthiness of `result.get('error')`: `None` and `''` are falsy. -/
def errTruthy : Option String → Bool
  | none => false
  | some s => !s.isEmpty

/-- Python dict assignment `d[k] = v`: overwrite in place if present,
append otherwise. -/
def dictInsert (m : List (String × TestResult)) (k : String) (v : TestResult) :
    List (String × TestResult) :=
  if m.any fun p => p.1 == k then m.map fun p => if p.1 == k then (k, v) else p
  else m ++ [(k, v)]

/-- One iteration of the suite loop (source lines 332-355): the accumulator
carries the suite record and the number of tests executed so far, which
indexes the per-execution serial environment. -/
def suiteStep (envAt : Nat → TestEnv) (acc : SuiteResults × Nat) (test_name : String) :
    SuiteResults × Nat :=
  if (lookupTest test_name).isSome then
    (let result := (run_crash_test test_name (envAt acc.2)).1
     let s := acc.1.summary
     let s' : Summary :=
       if errTruthy result.error then
         { s with total := s.total + 1, errors := s.errors + 1 }
       else if result.success then
         { s with total := s.total + 1, passed := s.passed + 1 }
       else
         { s with total := s.total + 1, failed := s.failed + 1 }
     ({ tests := dictInsert acc.1.tests test_name result, summary := s' }, acc.2 + 1))
  else acc

/-- The suite-level serial environment: whether `connect()` succeeds, the
lines captured by the initial `wait_for_system_ready()`, and the per-test
environments in execution order. -/
structure SuiteEnv where
  connectOk : Bool
  initLines : List Line
  envAt : Nat → TestEnv

/-- Suite driver `run_test_suite` (source lines 306-361): aborts before any test when the
connection or the initial readiness check fails, otherwise folds every
requested test through `suiteStep`. -/
def run_test_suite (tests_to_run : List String) (env : SuiteEnv) :
    Except String SuiteResults :=
  if !env.connectOk then Except.error "Connection failed"
  else if !wait_for_system_ready env.initLines then Except.error "System not ready"
  else Except.ok (tests_to_run.foldl (suiteStep env.envAt) ({}, 0)).1

/-- The sequence of `TestOutcome`s produced by the suite loop, in execution
order (each known requested test contributes one, duplicates included). -/
def executedResults (envAt : Nat → TestEnv) : List String → Nat → List TestResult
  | [], _ => []
  | n :: rest, k =>
    if (lookupTest n).isSome then
      (run_crash_test n (envAt k)).1 :: executedResults envAt rest (k + 1)
    else executedResults envAt rest k

/-! ## Supporting lemmas: buffer splitting, trimming, poll loop -/

theorem splitNL_append (a b : Line) :
    splitNL (a ++ b) =
      ((splitNL a).1 ++ (splitNL ((splitNL a).2 ++ b)).1,
       (splitNL ((splitNL a).2 ++ b)).2) := by
  induction a with
  | nil => simp [splitNL]
  | cons c a ih =>
    rcases hA : splitNL a with ⟨A1, A2⟩
    rw [hA] at ih
    rcases hQ : splitNL (A2 ++ b) with ⟨Q1, Q2⟩
    rw [hQ] at ih
    by_cases hc : c = '\n'
    · subst hc
      simp [splitNL, ih, hA, hQ]
    · cases A1 with
      | nil =>
        cases Q1 with
        | nil => simp [splitNL, hc, ih, hA, hQ, consFirst]
        | cons q qs => simp [splitNL, hc, ih, hA, hQ, consFirst]
      | cons l ls => simp [splitNL, hc, ih, hA, hQ, consFirst]

theorem splitNL_snd_no_nl (s : Line) : '\n' ∉ (splitNL s).2 := by
  induction s with
  | nil => simp [splitNL]
  | cons c rest ih =>
    rcases hR : splitNL rest with ⟨R1, R2⟩
    rw [hR] at ih
    by_cases hc : c = '\n'
    · subst hc; simpa [splitNL, hR] using ih
    · cases R1 with
      | nil => simpa [splitNL, hc, hR, consFirst, Ne.symm hc] using ih
      | cons l ls => simpa [splitNL, hc, hR, consFirst] using ih

theorem splitNL_of_no_nl (s : Line) (h : '\n' ∉ s) : splitNL s = ([], s) := by
  induction s with
  | nil => rfl
  | cons c rest ih =>
    have hc : c ≠ '\n' := fun hh => h (hh ▸ List.mem_cons_self c rest)
    have hr : '\n' ∉ rest := fun hh => h (List.mem_cons_of_mem c hh)
    simp [splitNL, hc, ih hr, consFirst]

theorem dropWhile_dropWhile (p : Char → Bool) (l : Line) :
    (l.dropWhile p).dropWhile p = l.dropWhile p := by
  induction l with
  | nil => rfl
  | cons c rest ih =>
    by_cases hc : p c
    · simp [List.dropWhile_cons, hc, ih]
    · simp [List.dropWhile_cons, hc]

theorem dropWhile_head_false (p : Char → Bool) (l : Line) (x : Char) (xs : Line)
    (h : l.dropWhile p = x :: xs) : p x = false := by
  induction l with
  | nil => simp at h
  | cons c rest ih =>
    by_cases hc : p c
    · rw [List.dropWhile_cons, if_pos hc] at h; exact ih h
    · rw [List.dropWhile_cons, if_neg hc] at h
      cases h
      simpa using hc

theorem trim_trim (l : Line) : trim (trim l) = trim l := by
  unfold trim
  generalize hA : List.dropWhile isWS l = A
  have hAid : List.dropWhile isWS A = A := by rw [← hA, dropWhile_dropWhile]
  have hsplit : List.takeWhile isWS A.reverse ++ List.dropWhile isWS A.reverse = A.reverse :=
    List.takeWhile_append_dropWhile isWS A.reverse
  generalize hT : List.takeWhile isWS A.reverse = T at hsplit
  generalize hB : List.dropWhile isWS A.reverse = B at hsplit ⊢
  have hBid : List.dropWhile isWS B = B := by rw [← hB, dropWhile_dropWhile]
  have hAeq : A = B.reverse ++ T.reverse := by
    conv_lhs => rw [← List.reverse_reverse A, ← hsplit]
    rw [List.reverse_append]
  have hstep1 : List.dropWhile isWS B.reverse = B.reverse := by
    rcases hC : B.reverse with _ | ⟨y, ys⟩
    · rfl
    · have hy : isWS y = false := by
        apply dropWhile_head_false isWS l y (ys ++ T.reverse)
        rw [hA, hAeq, hC, List.cons_append]
      simp [List.dropWhile_cons, hy]
  rw [hstep1, List.reverse_reverse, hBid]

theorem go_elapsed_ge (avail : Nat → Line) (extra : Nat → Nat) :
    ∀ fuel timeout k elapsed buffer lines, timeout - elapsed ≤ fuel →
      timeout ≤ (read_serial_go avail extra fuel timeout k elapsed buffer lines).2 := by
  intro fuel
  induction fuel with
  | zero =>
    intro timeout k elapsed buffer lines h
    simp only [read_serial_go]
    omega
  | succ n ih =>
    intro timeout k elapsed buffer lines h
    simp only [read_serial_go]
    by_cases hlt : elapsed < timeout
    · rw [if_pos hlt]
      exact ih timeout (k + 1) (elapsed + 1 + extra k) _ _ (by omega)
    · rw [if_neg hlt]
      omega

theorem go_elapsed_indep (avail avail2 : Nat → Line) (extra : Nat → Nat) :
    ∀ fuel timeout k elapsed buffer lines buffer2 lines2,
      (read_serial_go avail extra fuel timeout k elapsed buffer lines).2 =
        (read_serial_go avail2 extra fuel timeout k elapsed buffer2 lines2).2 := by
  intro fuel
  induction fuel with
  | zero => intro timeout k elapsed buffer lines buffer2 lines2; rfl
  | succ n ih =>
    intro timeout k elapsed buffer lines buffer2 lines2
    simp only [read_serial_go]
    by_cases hlt : elapsed < timeout
    · rw [if_pos hlt, if_pos hlt]
      exact ih timeout (k + 1) (elapsed + 1 + extra k) _ _ _ _
    · rw [if_neg hlt, if_neg hlt]

theorem read_serial_go_fuel_irrel (avail : Nat → Line) (extra : Nat → Nat) :
    ∀ fuel fuel2 timeout k elapsed buffer lines,
      timeout - elapsed ≤ fuel → timeout - elapsed ≤ fuel2 →
      read_serial_go avail extra fuel timeout k elapsed buffer lines =
        read_serial_go avail extra fuel2 timeout k elapsed buffer lines := by
  intro fuel
  induction fuel with
  | zero =>
    intro fuel2 timeout k elapsed buffer lines h1 h2
    cases fuel2 with
    | zero => rfl
    | succ m =>
      simp only [read_serial_go]
      rw [if_neg (by omega)]
  | succ n ih =>
    intro fuel2 timeout k elapsed buffer lines h1 h2
    cases fuel2 with
    | zero =>
      simp only [read_serial_go]
      rw [if_neg (by omega)]
    | succ m =>
      simp only [read_serial_go]
      by_cases hlt : elapsed < timeout
      · rw [if_pos hlt, if_pos hlt]
        exact ih m timeout (k + 1) (elapsed + 1 + extra k) _ _ (by omega) (by omega)
      · rw [if_neg hlt, if_neg hlt]

theorem emitLines_append (a b : Line) :
    emitLines (a ++ b) =
      (((splitNL a).1.map trim).filter fun l => !l.isEmpty) ++
        emitLines ((splitNL a).2 ++ b) := by
  unfold emitLines
  rw [splitNL_append a b]
  simp [List.filter_append]

theorem go_lines_spec (avail : Nat → Line) (extra : Nat → Nat) :
    ∀ fuel timeout k elapsed buffer lines, '\n' ∉ buffer →
      (read_serial_go avail extra fuel timeout k elapsed buffer lines).1 =
        lines ++ emitLines (buffer ++ window avail extra fuel timeout k elapsed) := by
  intro fuel
  induction fuel with
  | zero =>
    intro timeout k elapsed buffer lines hb
    simp only [read_serial_go, window]
    rw [List.append_nil]
    simp [emitLines, splitNL_of_no_nl buffer hb]
  | succ n ih =>
    intro timeout k elapsed buffer lines hb
    simp only [read_serial_go, window]
    by_cases hlt : elapsed < timeout
    · rw [if_pos hlt, if_pos hlt]
      rw [ih timeout (k + 1) (elapsed + 1 + extra k) _ _ (splitNL_snd_no_nl (buffer ++ avail k))]
      rw [← List.append_assoc buffer (avail k) _]
      rw [emitLines_append (buffer ++ avail k) _]
      rw [List.append_assoc]
    · rw [if_neg hlt, if_neg hlt]
      rw [List.append_nil]
      simp [emitLines, splitNL_of_no_nl buffer hb]

theorem window_zero (extra : Nat → Nat) :
    ∀ fuel timeout k elapsed, window (fun _ => []) extra fuel timeout k elapsed = [] := by
  intro fuel
  induction fuel with
  | zero => intro timeout k elapsed; rfl
  | succ n ih =>
    intro timeout k elapsed
    simp only [window]
    by_cases hlt : elapsed < timeout
    · rw [if_pos hlt, List.nil_append]
      exact ih timeout (k + 1) (elapsed + 1 + extra k)
    · rw [if_neg hlt]

theorem mem_emitLines (s : Line) (l : Line) (h : l ∈ emitLines s) :
    trim l = l ∧ l ≠ [] := by
  unfold emitLines at h
  rw [List.mem_filter] at h
  obtain ⟨hmem, hne⟩ := h
  rw [List.mem_map] at hmem
  obtain ⟨x, _, hx⟩ := hmem
  constructor
  · rw [← hx, trim_trim]
  · intro hnil
    rw [hnil] at hne
    simp at hne

theorem emitLines_append_no_nl (s frag : Line) (h : '\n' ∉ frag) :
    emitLines (s ++ frag) = emitLines s := by
  rw [emitLines_append s frag]
  have h2 : '\n' ∉ (splitNL s).2 ++ frag := by
    intro hmem
    rcases List.mem_append.mp hmem with h1 | h1
    · exact splitNL_snd_no_nl s h1
    · exact h h1
  rw [emitLines, splitNL_of_no_nl _ h2]
  simp [emitLines]

/-! ## Claim C6 -/

/-- C6: for every timeout and every transport behaviour — including the
transport that never yields a byte — `read_serial_with_timeout` terminates
(it is a total function whose iteration count is bounded by the timeout),
returns only once the elapsed wall-clock time has reached the timeout, never
returns earlier because data arrived (the instant it returns is the same as
for the zero-data transport), and with no data returns the empty sequence
rather than failing. -/
theorem C6_read_serial_bounded_wait (timeout : Nat) (avail : Nat → Line) (extra : Nat → Nat) :
    timeout ≤ read_serial_elapsed timeout avail extra
    ∧ read_serial_elapsed timeout avail extra = read_serial_elapsed timeout (fun _ => []) extra
    ∧ read_serial_with_timeout timeout (fun _ => []) extra = [] := by
  refine ⟨?_, ?_, ?_⟩
  · exact go_elapsed_ge avail extra timeout timeout 0 0 [] [] (by omega)
  · exact go_elapsed_indep avail (fun _ => []) extra timeout timeout 0 0 [] [] [] []
  · unfold read_serial_with_timeout
    rw [go_lines_spec (fun _ => []) extra timeout timeout 0 0 [] [] (by simp)]
    rw [window_zero]
    simp [emitLines, splitNL]

/-! ## Claim C10 -/

/-- C10: every call of `read_serial_with_timeout` emits exactly the trimmed,
non-empty, newline-terminated segments of the bytes received during its own
window: the output equals `emitLines` of the window's bytes, every returned
line is trimmed and non-empty, and a trailing newline-free fragment
contributes nothing (so an unterminated trailing segment is never emitted);
the carry-over buffer starts empty inside the call, so nothing is carried
into a later call. -/
theorem C10_only_complete_lines (timeout : Nat) (avail : Nat → Line) (extra : Nat → Nat) :
    read_serial_with_timeout timeout avail extra
        = emitLines (window avail extra timeout timeout 0 0)
    ∧ (∀ l ∈ read_serial_with_timeout timeout avail extra, trim l = l ∧ l ≠ [])
    ∧ (∀ s frag : Line, '\n' ∉ frag → emitLines (s ++ frag) = emitLines s) := by
  have hmain : read_serial_with_timeout timeout avail extra
      = emitLines (window avail extra timeout timeout 0 0) := by
    unfold read_serial_with_timeout
    rw [go_lines_spec avail extra timeout timeout 0 0 [] [] (by simp)]
    simp
  refine ⟨hmain, ?_, ?_⟩
  · intro l hl
    rw [hmain] at hl
    exact mem_emitLines _ l hl
  · intro s frag h
    exact emitLines_append_no_nl s frag h

/-- Witness for C10 at a concrete transport: one poll delivers
`"ab\ncd"`; the call returns exactly `["ab"]` and the unterminated
`"cd"` is discarded. -/
theorem C10_witness :
    read_serial_with_timeout 2 (fun k => if k = 0 then str "ab\ncd" else []) (fun _ => 0)
        = emitLines (window (fun k => if k = 0 then str "ab\ncd" else []) (fun _ => 0) 2 2 0 0)
    ∧ (trim (str "ab") = str "ab" ∧ str "ab" ≠ [])
    ∧ emitLines (str "a\nb" ++ str "cd") = emitLines (str "a\nb") := by
  have h := C10_only_complete_lines 2 (fun k => if k = 0 then str "ab\ncd" else []) (fun _ => 0)
  exact ⟨h.1, h.2.1 (str "ab") (by decide), h.2.2 (str "a\nb") (str "cd") (by decide)⟩


/-! ## Claim C1 -/

theorem two_mem_le_length {α : Type} (l : List α) (a b : α)
    (ha : a ∈ l) (hb : b ∈ l) (hne : a ≠ b) : 2 ≤ l.length := by
  cases l with
  | nil => simp at ha
  | cons x xs =>
    cases xs with
    | nil =>
      simp only [List.mem_singleton] at ha hb
      exact absurd (ha.trans hb.symm) hne
    | cons y ys => simp only [List.length_cons]; omega

/-- C1 as stated is false on the code: `wait_for_system_ready` counts
(line, indicator) occurrences, not distinct indicators.  This batch contains
exactly one distinct readiness indicator (`wait_for_system_ready_distinct`
counts 1, below the threshold), yet the source classifier returns `true`
because the single indicator occurs on two lines. -/
theorem C1_counterexample :
    wait_for_system_ready_distinct
        [str "Crash handler initialized", str "Crash handler initialized"] = false
    ∧ wait_for_system_ready
        [str "Crash handler initialized", str "Crash handler initialized"] = true := by
  decide

/-- C1 amended: readiness is declared iff at least two indicator
*occurrences* are found, one per (line, indicator) containment pair.
Two distinct indicators anywhere in the batch still yield `true`; a batch
with at most one occurrence yields `false`; but — contrary to the original
claim — one indicator repeated on two lines also yields `true`. -/
theorem C1_amended_readiness_counts_occurrences :
    (∀ lines : List Line, ∀ i ∈ ready_indicators, ∀ j ∈ ready_indicators, i ≠ j →
        (∃ l ∈ lines, containsSub i l = true) → (∃ l ∈ lines, containsSub j l = true) →
        wait_for_system_ready lines = true)
    ∧ (∀ lines : List Line, (found_indicators lines).length ≤ 1 →
        wait_for_system_ready lines = false)
    ∧ (∀ (l i : Line) (rest : List Line), i ∈ ready_indicators →
        containsSub i l = true → wait_for_system_ready (l :: l :: rest) = true) := by
  refine ⟨?_, ?_, ?_⟩
  · intro lines i hi j hj hne ⟨li, hli, hcli⟩ ⟨lj, hlj, hclj⟩
    have hmi : i ∈ found_indicators lines := by
      unfold found_indicators
      rw [List.mem_flatMap]
      exact ⟨li, hli, List.mem_filter.mpr ⟨hi, hcli⟩⟩
    have hmj : j ∈ found_indicators lines := by
      unfold found_indicators
      rw [List.mem_flatMap]
      exact ⟨lj, hlj, List.mem_filter.mpr ⟨hj, hclj⟩⟩
    simp only [wait_for_system_ready, decide_eq_true_eq]
    exact two_mem_le_length _ i j hmi hmj hne
  · intro lines h
    have hnot : ¬ 2 ≤ (found_indicators lines).length := by omega
    simp [wait_for_system_ready, hnot]
  · intro l i rest hi hc
    have hmem : i ∈ ready_indicators.filter fun ind => containsSub ind l :=
      List.mem_filter.mpr ⟨hi, hc⟩
    have hlen : 1 ≤ (ready_indicators.filter fun ind => containsSub ind l).length :=
      List.length_pos.mpr (List.ne_nil_of_mem hmem)
    simp only [wait_for_system_ready, decide_eq_true_eq, found_indicators,
      List.flatMap_cons, List.length_append]
    omega

/-- Witness for the amended C1: two distinct indicators give readiness; an
empty batch does not; a repeated single-indicator line gives readiness. -/
theorem C1_witness :
    wait_for_system_ready
        [str "Crash handler initialized", str "Crash log manager initialized"] = true
    ∧ wait_for_system_ready [] = false
    ∧ wait_for_system_ready
        [str "boot: Crash handler initialized", str "boot: Crash handler initialized"] = true := by
  have h := C1_amended_readiness_counts_occurrences
  refine ⟨?_, h.2.1 [] (by decide), h.2.2 (str "boot: Crash handler initialized")
    (str "Crash handler initialized") [] (by decide) (by decide)⟩
  exact h.1 [str "Crash handler initialized", str "Crash log manager initialized"]
    (str "Crash handler initialized") (by decide)
    (str "Crash log manager initialized") (by decide) (by decide)
    (by decide) (by decide)

/-! ## Claim C7 -/

/-- C7 as stated is false on the code: `parse_crash_logs` stamps each event
with `datetime.now()`, so two runs of the classifier over the same batch at
different instants produce events differing in the `timestamp` field. -/
theorem C7_counterexample :
    parse_crash_logs 0 [str "Test crash logged: x"]
      ≠ parse_crash_logs 1 [str "Test crash logged: x"] := by
  decide

theorem lineEvents_erase (t1 t2 : Nat) (line : Line) :
    (lineEvents t1 line).map eraseTimestamp = (lineEvents t2 line).map eraseTimestamp := by
  unfold lineEvents
  rw [List.map_filterMap, List.map_filterMap]
  apply List.filterMap_congr
  intro p _
  cases h : p.2 line with
  | none => simp [h]
  | some gs => simp [h, eraseTimestamp]

/-- C7 amended: the classifiers are pure up to the capture timestamp.
Re-running `parse_crash_logs` on the same batch yields event sequences
identical in every field except the per-event `timestamp` (which records the
wall clock of the run); in particular with the clock held fixed the outputs
are fully identical, and `detect_reboot`, a function of the lines alone, is
deterministic by construction. -/
theorem C7_amended_pure_up_to_timestamp (t1 t2 : Nat) (lines : List Line) :
    (parse_crash_logs t1 lines).map eraseTimestamp
      = (parse_crash_logs t2 lines).map eraseTimestamp := by
  induction lines with
  | nil => rfl
  | cons line rest ih =>
    unfold parse_crash_logs at ih ⊢
    simp only [List.flatMap_cons, List.map_append]
    rw [ih, lineEvents_erase t1 t2 line]

/-! ## Claim C8 -/

theorem length_filterMap_countP {α β : Type} (f : α → Option β) (l : List α) :
    (l.filterMap f).length = l.countP fun a => (f a).isSome := by
  induction l with
  | nil => rfl
  | cons a l ih =>
    cases h : f a with
    | none => simp [List.filterMap_cons, h, List.countP_cons, ih]
    | some b => simp [List.filterMap_cons, h, List.countP_cons, ih]

theorem matchStored_groups (line : Line) (gs : List Line)
    (h : matchStored line = some gs) : gs = [] := by
  unfold matchStored at h
  by_cases hc : (containsSub (str "logs stored") (lower line) ||
      containsSub (str "storing crash log") (lower line)) = true
  · rw [if_pos hc] at h
    exact (Option.some_inj.mp h).symm
  · rw [if_neg hc] at h
    exact absurd h (by simp)

/-- C8: the crash-log classifier applies each fixed pattern to each line
case-insensitively, one event per matching pattern: the literal
`"Test crash logged: overflow"` yields exactly one event whose captured
groups are `["overflow"]` (and the uppercase variant matches too, keeping
the original case of the payload); a line yields as many events as patterns
match it (so the init line matching both `init` and `stored` yields 2); a
line matching no pattern yields zero events; and a match of the group-less
`stored` pattern yields an event with empty `capturedGroups`. -/
theorem C8_parse_crash_logs_patterns :
    (∀ now, parse_crash_logs now [str "Test crash logged: overflow"]
        = [{ type := "test_logged", line := str "Test crash logged: overflow",
             data := some [str "overflow"], timestamp := now }])
    ∧ (∀ now, parse_crash_logs now [str "TEST CRASH LOGGED: OverFlow"]
        = [{ type := "test_logged", line := str "TEST CRASH LOGGED: OverFlow",
             data := some [str "OverFlow"], timestamp := now }])
    ∧ (∀ now line, (parse_crash_logs now [line]).length
        = patterns.countP fun p => (p.2 line).isSome)
    ∧ (∀ now line, matchInit line = none → matchStored line = none →
        matchTestLogged line = none → matchRecovery line = none →
        parse_crash_logs now [line] = [])
    ∧ (∀ now line ev, ev ∈ parse_crash_logs now [line] → ev.type = "stored" →
        capturedGroups ev = [])
    ∧ (∀ now,
        (parse_crash_logs now [str "Crash log manager initialized - 5 logs stored"]).length
          = 2) := by
  refine ⟨fun now => rfl, fun now => rfl, ?_, ?_, ?_, fun now => rfl⟩
  · intro now line
    simp only [parse_crash_logs, List.flatMap_cons, List.flatMap_nil, List.append_nil]
    unfold lineEvents
    rw [length_filterMap_countP]
    apply List.countP_congr
    intro p _
    simp
  · intro now line h1 h2 h3 h4
    simp [parse_crash_logs, lineEvents, patterns, List.filterMap_cons, h1, h2, h3, h4]
  · intro now line ev hmem htype
    simp only [parse_crash_logs, List.flatMap_cons, List.flatMap_nil, List.append_nil,
      lineEvents, patterns] at hmem
    rw [List.mem_filterMap] at hmem
    obtain ⟨p, hp, hev⟩ := hmem
    simp only [List.mem_cons, List.mem_singleton, List.not_mem_nil] at hp
    rcases hp with hp | hp | hp | hp | hp
    · subst hp
      dsimp only at hev
      cases h : matchInit line with
      | none => rw [h] at hev; exact absurd hev (by simp)
      | some gs =>
        rw [h] at hev
        simp only [Option.map_some', Option.some_inj] at hev
        rw [← hev] at htype
        simp at htype
    · subst hp
      dsimp only at hev
      cases h : matchStored line with
      | none => rw [h] at hev; exact absurd hev (by simp)
      | some gs =>
        have hgs : gs = [] := matchStored_groups line gs h
        rw [h] at hev
        simp only [Option.map_some', Option.some_inj] at hev
        rw [← hev]
        simp [capturedGroups, hgs]
    · subst hp
      dsimp only at hev
      cases h : matchTestLogged line with
      | none => rw [h] at hev; exact absurd hev (by simp)
      | some gs =>
        rw [h] at hev
        simp only [Option.map_some', Option.some_inj] at hev
        rw [← hev] at htype
        simp at htype
    · subst hp
      dsimp only at hev
      cases h : matchRecovery line with
      | none => rw [h] at hev; exact absurd hev (by simp)
      | some gs =>
        rw [h] at hev
        simp only [Option.map_some', Option.some_inj] at hev
        rw [← hev] at htype
        simp at htype
    · exact absurd hp (by simp)

/-- Witness for C8 at concrete inputs: the sample line, its uppercase
variant, the group-less `stored` line, a line matching nothing, and the
double-match init line. -/
theorem C8_witness :
    parse_crash_logs 3 [str "Test crash logged: overflow"]
        = [{ type := "test_logged", line := str "Test crash logged: overflow",
             data := some [str "overflow"], timestamp := 3 }]
    ∧ parse_crash_logs 3 [str "TEST CRASH LOGGED: OverFlow"]
        = [{ type := "test_logged", line := str "TEST CRASH LOGGED: OverFlow",
             data := some [str "OverFlow"], timestamp := 3 }]
    ∧ (parse_crash_logs 3 [str "Storing crash log"]).length
        = patterns.countP (fun p => (p.2 (str "Storing crash log")).isSome)
    ∧ parse_crash_logs 3 [str "hello world"] = []
    ∧ capturedGroups
        { type := "stored", line := str "Storing crash log", data := none, timestamp := 3 } = []
    ∧ (parse_crash_logs 3 [str "Crash log manager initialized - 5 logs stored"]).length
        = 2 := by
  have h := C8_parse_crash_logs_patterns
  refine ⟨h.1 3, h.2.1 3, h.2.2.1 3 (str "Storing crash log"),
    h.2.2.2.1 3 (str "hello world") (by decide) (by decide) (by decide) (by decide),
    h.2.2.2.2.1 3 (str "Storing crash log")
      { type := "stored", line := str "Storing crash log", data := none, timestamp := 3 }
      (by decide) (by decide),
    h.2.2.2.2.2 3⟩


/-! ## Claim C2 -/

/-- C2: for every non-soft test, success follows the `expect_reboot` policy
(source lines 286-298), provided no exception interrupts the test (the
observation read and the recovery read both return): if `expect_reboot` is
true, `success` requires both a detected reboot and a detected crash log,
and is forced to `false` when a reboot was detected but the recovery-window
lines do not confirm readiness; if `expect_reboot` is false, `success`
requires a detected crash log and no detected reboot. -/
theorem C2_success_policy (test_name : String) (cfg : TestConfig) (env : TestEnv)
    (ls rs : List Line)
    (hlook : lookupTest test_name = some cfg)
    (hsoft : test_name ≠ "soft_test")
    (hobs : env.obsRead = Except.ok ls)
    (hrec : env.recRead = Except.ok rs) :
    (cfg.expect_reboot = true →
      ((run_crash_test test_name env).1.success = true →
        (run_crash_test test_name env).1.reboot_detected = true ∧
          (run_crash_test test_name env).1.crash_detected = true)
      ∧ ((run_crash_test test_name env).1.reboot_detected = true →
          wait_for_system_ready rs = false →
          (run_crash_test test_name env).1.success = false))
    ∧ (cfg.expect_reboot = false →
        (run_crash_test test_name env).1.success = true →
        (run_crash_test test_name env).1.crash_detected = true ∧
          (run_crash_test test_name env).1.reboot_detected = false) := by
  have hbeq : (test_name == "soft_test") = false := by
    simp [hsoft]
  cases hsendv : env.sendOk with
  | false =>
    simp [run_crash_test, hlook, hbeq, hsendv]
  | true =>
    cases hrb : detect_reboot ls with
    | false =>
      cases hexp : cfg.expect_reboot with
      | false =>
        simp [run_crash_test, hlook, hbeq, hsendv, hobs, hrec, hrb, hexp]
      | true =>
        simp [run_crash_test, hlook, hbeq, hsendv, hobs, hrec, hrb, hexp]
    | true =>
      cases hready : wait_for_system_ready rs with
      | false =>
        simp [run_crash_test, hlook, hbeq, hsendv, hobs, hrec, hrb, hready]
      | true =>
        cases hexp : cfg.expect_reboot with
        | false =>
          simp [run_crash_test, hlook, hbeq, hsendv, hobs, hrec, hrb, hready, hexp]
        | true =>
          simp [run_crash_test, hlook, hbeq, hsendv, hobs, hrec, hrb, hready, hexp]

/-- The concrete environment of the C2 witness: observation shows a boot
banner and a stored crash log, recovery shows two readiness indicators. -/
def envC2 : TestEnv :=
  { sendOk := true, softRead := Except.ok [],
    obsRead := Except.ok [str "rst:0x10 (RTCWDT_RTC_RESET)", str "Storing crash log"],
    recRead := Except.ok [str "Crash handler initialized", str "Crash log manager initialized"],
    now := 0 }

/-- Witness for C2 on the `null_pointer` test in a well-behaved environment. -/
theorem C2_witness :
    ((true : Bool) = true →
      ((run_crash_test "null_pointer" envC2).1.success = true →
        (run_crash_test "null_pointer" envC2).1.reboot_detected = true ∧
          (run_crash_test "null_pointer" envC2).1.crash_detected = true)
      ∧ ((run_crash_test "null_pointer" envC2).1.reboot_detected = true →
          wait_for_system_ready
            [str "Crash handler initialized", str "Crash log manager initialized"] = false →
          (run_crash_test "null_pointer" envC2).1.success = false))
    ∧ ((true : Bool) = false →
        (run_crash_test "null_pointer" envC2).1.success = true →
        (run_crash_test "null_pointer" envC2).1.crash_detected = true ∧
          (run_crash_test "null_pointer" envC2).1.reboot_detected = false) := by
  have h := C2_success_policy "null_pointer"
    { name := "Null Pointer Dereference", command := "TEST_CRASH_NULL",
      description := "Triggers null pointer access violation",
      expect_reboot := true, timeout := 15 }
    envC2
    [str "rst:0x10 (RTCWDT_RTC_RESET)", str "Storing crash log"]
    [str "Crash handler initialized", str "Crash log manager initialized"]
    (by decide) (by decide) rfl rfl
  exact h

/-! ## Claim C3 -/

/-- The environment of the C3 counterexample: the test observes a reboot and
a crash log, the success policy sets `success := true`, and then the
recovery-wait read raises (the serial port is gone).  The exception is
caught at the test boundary and stored in `error`, but `success` keeps the
value computed before the recovery wait. -/
def envC3 : TestEnv :=
  { sendOk := true, softRead := Except.ok [],
    obsRead := Except.ok [str "rst:0x10 (RTCWDT_RTC_RESET)", str "Storing crash log"],
    recRead := Except.error "read failed: port closed",
    now := 0 }

/-- C3 as stated is false on the code: this TestOutcome has a non-null
`error` and `succeeded == true` at the same time. -/
theorem C3_counterexample :
    (run_crash_test "null_pointer" envC3).1.error = some "read failed: port closed"
    ∧ (run_crash_test "null_pointer" envC3).1.success = true := by
  decide


/-! ## Claim C9 -/

/-- C9: the designated soft test never sends a command over the transport
and never applies the reboot classifier, and (when its observation read
returns) its `success` flag is true iff some captured line contains a
test-marker indicator (source lines 220-241 and 266-269). -/
theorem C9_soft_test_no_command_no_reboot (env : TestEnv) :
    (run_crash_test "soft_test" env).2.commandsSent = []
    ∧ (run_crash_test "soft_test" env).2.rebootClassifierApplied = false
    ∧ (∀ ls, env.softRead = Except.ok ls →
        ((run_crash_test "soft_test" env).1.success = true ↔
          ∃ l ∈ ls, ∃ ind ∈ test_indicators, containsSub ind l = true)) := by
  have hl : lookupTest "soft_test" =
      some { name := "Soft Test Crash", command := "TEST_CRASH_SOFT",
             description := "Tests logging without actual crash",
             expect_reboot := false, timeout := 10 } := rfl
  cases hs : env.softRead with
  | ok ls0 =>
    refine ⟨by simp [run_crash_test, hl, hs], by simp [run_crash_test, hl, hs], ?_⟩
    intro ls hls
    cases hls
    simp [run_crash_test, hl, hs, trigger_soft_crash_test, List.any_eq_true]
  | error e =>
    refine ⟨by simp [run_crash_test, hl, hs], by simp [run_crash_test, hl, hs], ?_⟩
    intro ls hls
    exact absurd hls (by simp)

/-- The concrete environment of the C9 witness (spec scenario C). -/
def envC9 : TestEnv :=
  { sendOk := true, softRead := Except.ok [str "Test crash logged: manual"],
    obsRead := Except.ok [], recRead := Except.ok [], now := 0 }

/-- Witness for C9: the soft test in a window containing
`"Test crash logged: manual"` sends nothing, never consults the reboot
classifier, and succeeds iff the marker is present. -/
theorem C9_witness :
    (run_crash_test "soft_test" envC9).2.commandsSent = []
    ∧ (run_crash_test "soft_test" envC9).2.rebootClassifierApplied = false
    ∧ ((run_crash_test "soft_test" envC9).1.success = true ↔
        ∃ l ∈ [str "Test crash logged: manual"],
          ∃ ind ∈ test_indicators, containsSub ind l = true) := by
  have h := C9_soft_test_no_command_no_reboot envC9
  exact ⟨h.1, h.2.1, h.2.2 [str "Test crash logged: manual"] rfl⟩

/-! ## Suite-level lemmas -/

theorem suiteStep_total_known (envAt : Nat → TestEnv) (acc : SuiteResults × Nat)
    (test_name : String) (hk : (lookupTest test_name).isSome) :
    (suiteStep envAt acc test_name).1.summary.total = acc.1.summary.total + 1 := by
  unfold suiteStep
  rw [if_pos hk]
  by_cases he : errTruthy (run_crash_test test_name (envAt acc.2)).1.error
  · simp [he]
  · by_cases hsucc : (run_crash_test test_name (envAt acc.2)).1.success
    · simp [he, hsucc]
    · simp [he, hsucc]

theorem suiteStep_exactly_one (envAt : Nat → TestEnv) (acc : SuiteResults × Nat)
    (test_name : String) (hk : (lookupTest test_name).isSome) :
    ((suiteStep envAt acc test_name).1.summary.passed = acc.1.summary.passed + 1
      ∧ (suiteStep envAt acc test_name).1.summary.failed = acc.1.summary.failed
      ∧ (suiteStep envAt acc test_name).1.summary.errors = acc.1.summary.errors)
    ∨ ((suiteStep envAt acc test_name).1.summary.failed = acc.1.summary.failed + 1
      ∧ (suiteStep envAt acc test_name).1.summary.passed = acc.1.summary.passed
      ∧ (suiteStep envAt acc test_name).1.summary.errors = acc.1.summary.errors)
    ∨ ((suiteStep envAt acc test_name).1.summary.errors = acc.1.summary.errors + 1
      ∧ (suiteStep envAt acc test_name).1.summary.passed = acc.1.summary.passed
      ∧ (suiteStep envAt acc test_name).1.summary.failed = acc.1.summary.failed) := by
  unfold suiteStep
  rw [if_pos hk]
  by_cases he : errTruthy (run_crash_test test_name (envAt acc.2)).1.error
  · right; right; simp [he]
  · by_cases hsucc : (run_crash_test test_name (envAt acc.2)).1.success
    · left; simp [he, hsucc]
    · right; left; simp [he, hsucc]

theorem suiteStep_unknown (envAt : Nat → TestEnv) (acc : SuiteResults × Nat)
    (test_name : String) (hk : ¬ (lookupTest test_name).isSome) :
    suiteStep envAt acc test_name = acc := by
  unfold suiteStep
  rw [if_neg hk]

theorem foldl_suite_sum (envAt : Nat → TestEnv) :
    ∀ (l : List String) (acc : SuiteResults × Nat),
      acc.1.summary.passed + acc.1.summary.failed + acc.1.summary.errors
        = acc.1.summary.total →
      (l.foldl (suiteStep envAt) acc).1.summary.passed
        + (l.foldl (suiteStep envAt) acc).1.summary.failed
        + (l.foldl (suiteStep envAt) acc).1.summary.errors
        = (l.foldl (suiteStep envAt) acc).1.summary.total := by
  intro l
  induction l with
  | nil => intro acc h; exact h
  | cons n rest ih =>
    intro acc h
    rw [List.foldl_cons]
    apply ih
    by_cases hk : (lookupTest n).isSome
    · have htot := suiteStep_total_known envAt acc n hk
      rcases suiteStep_exactly_one envAt acc n hk with ⟨h1, h2, h3⟩ | ⟨h1, h2, h3⟩ | ⟨h1, h2, h3⟩ <;>
        (rw [h1, h2, h3, htot]; omega)
    · rw [suiteStep_unknown envAt acc n hk]; exact h


theorem run_test_suite_ok (tests_to_run : List String) (env : SuiteEnv) (sr : SuiteResults)
    (h : run_test_suite tests_to_run env = Except.ok sr) :
    sr = (tests_to_run.foldl (suiteStep env.envAt) ({}, 0)).1 := by
  unfold run_test_suite at h
  by_cases h1 : !env.connectOk
  · rw [if_pos h1] at h; exact absurd h (by simp)
  · rw [if_neg h1] at h
    by_cases h2 : !wait_for_system_ready env.initLines
    · rw [if_pos h2] at h; exact absurd h (by simp)
    · rw [if_neg h2] at h
      exact (Except.ok.inj h).symm

/-! ## Claim C5 -/

/-- C5: for every suite run that reached finalization, the summary counters
partition the total (`passed + failed + errors = total`), and every executed
(known) test increments `total` by one and exactly one of the three
counters by one. -/
theorem C5_counters_partition_total (tests_to_run : List String) (env : SuiteEnv)
    (sr : SuiteResults) (h : run_test_suite tests_to_run env = Except.ok sr) :
    sr.summary.passed + sr.summary.failed + sr.summary.errors = sr.summary.total
    ∧ (∀ (acc : SuiteResults × Nat) (test_name : String), (lookupTest test_name).isSome →
        (suiteStep env.envAt acc test_name).1.summary.total = acc.1.summary.total + 1
        ∧ (((suiteStep env.envAt acc test_name).1.summary.passed = acc.1.summary.passed + 1
            ∧ (suiteStep env.envAt acc test_name).1.summary.failed = acc.1.summary.failed
            ∧ (suiteStep env.envAt acc test_name).1.summary.errors = acc.1.summary.errors)
          ∨ ((suiteStep env.envAt acc test_name).1.summary.failed = acc.1.summary.failed + 1
            ∧ (suiteStep env.envAt acc test_name).1.summary.passed = acc.1.summary.passed
            ∧ (suiteStep env.envAt acc test_name).1.summary.errors = acc.1.summary.errors)
          ∨ ((suiteStep env.envAt acc test_name).1.summary.errors = acc.1.summary.errors + 1
            ∧ (suiteStep env.envAt acc test_name).1.summary.passed = acc.1.summary.passed
            ∧ (suiteStep env.envAt acc test_name).1.summary.failed = acc.1.summary.failed))) := by
  constructor
  · rw [run_test_suite_ok tests_to_run env sr h]
    exact foldl_suite_sum env.envAt tests_to_run ({}, 0) rfl
  · intro acc tn hk
    exact ⟨suiteStep_total_known env.envAt acc tn hk,
      suiteStep_exactly_one env.envAt acc tn hk⟩

/-- The per-test and suite environments of the C5 witness. -/
def envC5 : TestEnv :=
  { sendOk := true, softRead := Except.ok [], obsRead := Except.ok [],
    recRead := Except.ok [], now := 0 }

/-- Suite environment of the C5 witness. -/
def suiteEnvC5 : SuiteEnv :=
  { connectOk := true,
    initLines := [str "Crash handler initialized", str "Crash log manager initialized"],
    envAt := fun _ => envC5 }

/-- The suite result the C5 witness run produces. -/
def srC5 : SuiteResults :=
  { tests := [("soft_test", { test_name := "soft_test" })],
    summary := { total := 1, passed := 0, failed := 1, errors := 0 } }

/-- Witness for C5 on a concrete one-test suite run. -/
theorem C5_witness :
    srC5.summary.passed + srC5.summary.failed + srC5.summary.errors = srC5.summary.total
    ∧ ((suiteStep suiteEnvC5.envAt (srC5, 1) "soft_test").1.summary.total
          = srC5.summary.total + 1
        ∧ (((suiteStep suiteEnvC5.envAt (srC5, 1) "soft_test").1.summary.passed
              = srC5.summary.passed + 1
            ∧ (suiteStep suiteEnvC5.envAt (srC5, 1) "soft_test").1.summary.failed
              = srC5.summary.failed
            ∧ (suiteStep suiteEnvC5.envAt (srC5, 1) "soft_test").1.summary.errors
              = srC5.summary.errors)
          ∨ ((suiteStep suiteEnvC5.envAt (srC5, 1) "soft_test").1.summary.failed
              = srC5.summary.failed + 1
            ∧ (suiteStep suiteEnvC5.envAt (srC5, 1) "soft_test").1.summary.passed
              = srC5.summary.passed
            ∧ (suiteStep suiteEnvC5.envAt (srC5, 1) "soft_test").1.summary.errors
              = srC5.summary.errors)
          ∨ ((suiteStep suiteEnvC5.envAt (srC5, 1) "soft_test").1.summary.errors
              = srC5.summary.errors + 1
            ∧ (suiteStep suiteEnvC5.envAt (srC5, 1) "soft_test").1.summary.passed
              = srC5.summary.passed
            ∧ (suiteStep suiteEnvC5.envAt (srC5, 1) "soft_test").1.summary.failed
              = srC5.summary.failed))) := by
  have h := C5_counters_partition_total ["soft_test"] suiteEnvC5 srC5 rfl
  exact ⟨h.1, h.2 (srC5, 1) "soft_test" rfl⟩


theorem suiteStep_idx_known (envAt : Nat → TestEnv) (acc : SuiteResults × Nat)
    (test_name : String) (hk : (lookupTest test_name).isSome) :
    (suiteStep envAt acc test_name).2 = acc.2 + 1 := by
  unfold suiteStep
  rw [if_pos hk]

theorem suiteStep_passed (envAt : Nat → TestEnv) (acc : SuiteResults × Nat)
    (test_name : String) (hk : (lookupTest test_name).isSome) :
    (suiteStep envAt acc test_name).1.summary.passed
      = acc.1.summary.passed +
          (if !errTruthy (run_crash_test test_name (envAt acc.2)).1.error &&
              (run_crash_test test_name (envAt acc.2)).1.success then 1 else 0) := by
  unfold suiteStep
  rw [if_pos hk]
  by_cases he : errTruthy (run_crash_test test_name (envAt acc.2)).1.error
  · simp [he]
  · by_cases hsucc : (run_crash_test test_name (envAt acc.2)).1.success
    · simp [he, hsucc]
    · simp [he, hsucc]

theorem suiteStep_errors (envAt : Nat → TestEnv) (acc : SuiteResults × Nat)
    (test_name : String) (hk : (lookupTest test_name).isSome) :
    (suiteStep envAt acc test_name).1.summary.errors
      = acc.1.summary.errors +
          (if errTruthy (run_crash_test test_name (envAt acc.2)).1.error then 1 else 0) := by
  unfold suiteStep
  rw [if_pos hk]
  by_cases he : errTruthy (run_crash_test test_name (envAt acc.2)).1.error
  · simp [he]
  · by_cases hsucc : (run_crash_test test_name (envAt acc.2)).1.success
    · simp [he, hsucc]
    · simp [he, hsucc]

theorem foldl_suite_counts (envAt : Nat → TestEnv) :
    ∀ (l : List String) (acc : SuiteResults × Nat),
      (l.foldl (suiteStep envAt) acc).1.summary.passed
        = acc.1.summary.passed +
            ((executedResults envAt l acc.2).countP fun r => !errTruthy r.error && r.success)
      ∧ (l.foldl (suiteStep envAt) acc).1.summary.errors
        = acc.1.summary.errors +
            ((executedResults envAt l acc.2).countP fun r => errTruthy r.error) := by
  intro l
  induction l with
  | nil => intro acc; simp [executedResults]
  | cons n rest ih =>
    intro acc
    rw [List.foldl_cons]
    by_cases hk : (lookupTest n).isSome
    · obtain ⟨ihp, ihe⟩ := ih (suiteStep envAt acc n)
      rw [suiteStep_idx_known envAt acc n hk] at ihp ihe
      rw [ihp, ihe, suiteStep_passed envAt acc n hk, suiteStep_errors envAt acc n hk]
      simp only [executedResults, hk, if_pos, List.countP_cons]
      constructor <;> by_cases he : errTruthy (run_crash_test n (envAt acc.2)).1.error <;>
        by_cases hsucc : (run_crash_test n (envAt acc.2)).1.success <;>
        simp [he, hsucc] <;> omega
    · obtain ⟨ihp, ihe⟩ := ih acc
      rw [suiteStep_unknown envAt acc n hk]
      simp only [executedResults, hk, if_neg]
      exact ⟨ihp, ihe⟩

/-! ## Claim C3 (amended) -/

/-- C3 amended: in every finalized suite run, `errors` counts exactly the
executed outcomes with a truthy (non-empty) `error`, and `passed` counts
exactly the executed outcomes with no truthy error and `success == true` —
so an outcome with a non-empty `error` is never counted as passed.  What
fails in the original claim is only `error != null ⇒ succeeded == false`:
see `C3_counterexample`, where an exception caught after the success policy
ran leaves `succeeded == true` next to a non-null `error`. -/
theorem C3_amended_error_never_passed (tests_to_run : List String) (env : SuiteEnv)
    (sr : SuiteResults) (h : run_test_suite tests_to_run env = Except.ok sr) :
    sr.summary.errors
        = ((executedResults env.envAt tests_to_run 0).countP fun r => errTruthy r.error)
    ∧ sr.summary.passed
        = ((executedResults env.envAt tests_to_run 0).countP fun r =>
            !errTruthy r.error && r.success)
    ∧ (∀ r : TestResult, errTruthy r.error = true →
        (!errTruthy r.error && r.success) = false) := by
  obtain ⟨hp, he⟩ := foldl_suite_counts env.envAt tests_to_run ({}, 0)
  rw [run_test_suite_ok tests_to_run env sr h]
  refine ⟨by simpa using he, by simpa using hp, ?_⟩
  intro r hr
  rw [hr]
  rfl

/-- Suite environment of the C3 witness: one `null_pointer` run whose
recovery read raises after success was computed. -/
def suiteEnvC3 : SuiteEnv :=
  { connectOk := true,
    initLines := [str "Crash handler initialized", str "Crash log manager initialized"],
    envAt := fun _ => envC3 }

/-- The suite result of the C3 witness run: the outcome has `success = true`
and a non-empty `error`, and is counted as errored, not passed. -/
def srC3 : SuiteResults :=
  { tests := [("null_pointer",
      { test_name := "null_pointer", success := true, crash_detected := true,
        reboot_detected := true,
        crash_logs := [{ type := "stored", line := str "Storing crash log",
                         data := none, timestamp := 0 }],
        error := some "read failed: port closed" })],
    summary := { total := 1, passed := 0, failed := 0, errors := 1 } }

/-- Witness for the amended C3 on a concrete suite run. -/
theorem C3_witness :
    srC3.summary.errors
        = ((executedResults suiteEnvC3.envAt ["null_pointer"] 0).countP fun r =>
            errTruthy r.error)
    ∧ srC3.summary.passed
        = ((executedResults suiteEnvC3.envAt ["null_pointer"] 0).countP fun r =>
            !errTruthy r.error && r.success)
    ∧ (∀ r : TestResult, errTruthy r.error = true →
        (!errTruthy r.error && r.success) = false) := by
  have h := C3_amended_error_never_passed ["null_pointer"] suiteEnvC3 srC3 rfl
  exact h


theorem foldl_suite_total (envAt : Nat → TestEnv) :
    ∀ (l : List String) (acc : SuiteResults × Nat),
      (l.foldl (suiteStep envAt) acc).1.summary.total
        = acc.1.summary.total + (l.filter fun n => (lookupTest n).isSome).length := by
  intro l
  induction l with
  | nil => intro acc; simp
  | cons n rest ih =>
    intro acc
    rw [List.foldl_cons]
    by_cases hk : (lookupTest n).isSome
    · rw [ih (suiteStep envAt acc n), suiteStep_total_known envAt acc n hk]
      simp only [List.filter_cons, hk, if_pos, List.length_cons]
      omega
    · rw [suiteStep_unknown envAt acc n hk, ih acc]
      simp only [List.filter_cons, hk]
      simp

theorem dictInsert_eq_append_of_not_mem (m : List (String × TestResult)) (k : String)
    (v : TestResult) (h : ∀ p ∈ m, p.1 ≠ k) :
    dictInsert m k v = m ++ [(k, v)] := by
  unfold dictInsert
  have hany : (m.any fun p => p.1 == k) = false := by
    rw [List.any_eq_false]
    intro p hp
    simp [h p hp]
  simp [hany]

theorem suiteStep_tests_known (envAt : Nat → TestEnv) (acc : SuiteResults × Nat)
    (test_name : String) (hk : (lookupTest test_name).isSome) :
    (suiteStep envAt acc test_name).1.tests
      = dictInsert acc.1.tests test_name (run_crash_test test_name (envAt acc.2)).1 := by
  unfold suiteStep
  rw [if_pos hk]

theorem foldl_tests_length (envAt : Nat → TestEnv) :
    ∀ (l : List String) (acc : SuiteResults × Nat),
      (∀ n ∈ l, (lookupTest n).isSome → ∀ p ∈ acc.1.tests, p.1 ≠ n) →
      (l.filter fun n => (lookupTest n).isSome).Nodup →
      (l.foldl (suiteStep envAt) acc).1.tests.length
        = acc.1.tests.length + (l.filter fun n => (lookupTest n).isSome).length := by
  intro l
  induction l with
  | nil => intro acc _ _; simp
  | cons n rest ih =>
    intro acc hmem hnd
    rw [List.foldl_cons]
    by_cases hk : (lookupTest n).isSome
    · have hfil : ((n :: rest).filter fun x => (lookupTest x).isSome)
          = n :: (rest.filter fun x => (lookupTest x).isSome) := by
        simp only [List.filter_cons, hk, if_pos]
      rw [hfil] at hnd ⊢
      have hnotin : n ∉ (rest.filter fun x => (lookupTest x).isSome) :=
        (List.nodup_cons.mp hnd).1
      have hnd2 : (rest.filter fun x => (lookupTest x).isSome).Nodup :=
        (List.nodup_cons.mp hnd).2
      have hold : ∀ p ∈ acc.1.tests, p.1 ≠ n :=
        fun p hp => hmem n (List.mem_cons_self n rest) hk p hp
      have happ : (suiteStep envAt acc n).1.tests
          = acc.1.tests ++ [(n, (run_crash_test n (envAt acc.2)).1)] := by
        rw [suiteStep_tests_known envAt acc n hk]
        exact dictInsert_eq_append_of_not_mem _ _ _ hold
      have hmem2 : ∀ m ∈ rest, (lookupTest m).isSome →
          ∀ p ∈ (suiteStep envAt acc n).1.tests, p.1 ≠ m := by
        intro m hm hkm p hp
        rw [happ] at hp
        rcases List.mem_append.mp hp with hp1 | hp1
        · exact hmem m (List.mem_cons_of_mem n hm) hkm p hp1
        · have hpn : p = (n, (run_crash_test n (envAt acc.2)).1) := by
            simpa using hp1
          rw [hpn]
          intro hcon
          apply hnotin
          have hnm : n = m := by simpa using hcon
          rw [hnm]
          exact List.mem_filter.mpr ⟨hm, by simpa using hkm⟩
      rw [ih (suiteStep envAt acc n) hmem2 hnd2, happ]
      simp only [List.length_append, List.length_cons, List.length_nil]
      omega
    · have hfil : ((n :: rest).filter fun x => (lookupTest x).isSome)
          = rest.filter fun x => (lookupTest x).isSome := by
        simp only [List.filter_cons, hk]
        simp
      rw [hfil] at hnd ⊢
      rw [suiteStep_unknown envAt acc n hk]
      exact ih acc (fun m hm => hmem m (List.mem_cons_of_mem n hm)) hnd

/-! ## Claim C4 -/

/-- Per-test environment of the C4 counterexample and witness. -/
def envC4 : TestEnv :=
  { sendOk := true, softRead := Except.ok [], obsRead := Except.ok [],
    recRead := Except.ok [], now := 0 }

/-- Suite environment of the C4 counterexample and witness. -/
def suiteEnvC4 : SuiteEnv :=
  { connectOk := true,
    initLines := [str "Crash handler initialized", str "Crash log manager initialized"],
    envAt := fun _ => envC4 }

/-- C4 as stated is false on the code: requesting the same known identifier
twice executes it twice (`totals.total = 2`) but the per-test dict holds a
single overwritten entry (`tests.length = 1`), so
`totals.total ≠ outcomesByTestId.size()`. -/
theorem C4_counterexample :
    (run_test_suite ["soft_test", "soft_test"] suiteEnvC4).toOption.map
        (fun sr => (sr.summary.total, sr.tests.length)) = some (2, 1) := by
  decide

/-- C4 amended: after finalization `totals.total` equals the number of
executed (known) requested identifiers counted with multiplicity; it equals
the size of the per-test outcomes mapping whenever the known requested
identifiers are pairwise distinct (as the CLI produces them), but not when a
known identifier is requested more than once. -/
theorem C4_amended_total_counts_multiplicity (tests_to_run : List String) (env : SuiteEnv)
    (sr : SuiteResults) (h : run_test_suite tests_to_run env = Except.ok sr) :
    sr.summary.total = (tests_to_run.filter fun n => (lookupTest n).isSome).length
    ∧ ((tests_to_run.filter fun n => (lookupTest n).isSome).Nodup →
        sr.tests.length = sr.summary.total) := by
  rw [run_test_suite_ok tests_to_run env sr h]
  constructor
  · simpa using foldl_suite_total env.envAt tests_to_run ({}, 0)
  · intro hnd
    have hlen := foldl_tests_length env.envAt tests_to_run ({}, 0)
      (by intro n _ _ p hp; simp at hp) hnd
    have htot := foldl_suite_total env.envAt tests_to_run ({}, 0)
    simp only [] at hlen htot
    rw [hlen, htot]
    simp

/-- The suite result of the C4 witness run. -/
def srC4 : SuiteResults :=
  { tests := [("soft_test", { test_name := "soft_test" })],
    summary := { total := 1, passed := 0, failed := 1, errors := 0 } }

/-- Witness for the amended C4 on a concrete distinct-identifier run. -/
theorem C4_witness :
    srC4.summary.total = ((["soft_test"]).filter fun n => (lookupTest n).isSome).length
    ∧ srC4.tests.length = srC4.summary.total := by
  have h := C4_amended_total_counts_multiplicity ["soft_test"] suiteEnvC4 srC4 rfl
  exact ⟨h.1, h.2 (by decide)⟩


end CrashSuite
